import Mathlib

/-!
Verification of the StepSync step-detection classifier
(`src/StepSync/app.js`, class `PrecisionStepTracker`).

The classifier core is the triple `detectStep` / `recordStep` /
`processMotionData`.  `detectStep(x, y, z, currentTime)` computes the
acceleration magnitude, three boolean indicators, a weighted confidence,
pushes a signature onto a rolling history (shifting the oldest entry when
the history exceeds 10 entries), and returns the accept/reject decision
`confidence > confidenceThreshold && isValidStepInterval`.  On acceptance
`recordStep` stores the sample's time in `lastPeakTime`.

We embed the classifier state and the processing step over the reals
(JavaScript numbers are idealised as `ℝ`; a separate extended-number model
`ENum` below captures the NaN/Infinity propagation behaviour of the
comparisons the source performs, which the real model cannot express).
Step counting, display, persistence and permission handling are the
aggregator's concern and are outside the classifier state.
-/

namespace StepSync

noncomputable section

open Classical

/-- One entry of the rolling signature history
(source: `state.stepSignatures.push({magnitude, verticalMovement,
confidence, timestamp})`, app.js lines 105-110). -/
structure StepSignature where
  magnitude : ℝ
  verticalMovement : ℝ
  confidence : ℝ
  timestamp : ℝ

/-- The classifier's mutable state, the `detectionState` object built in the
constructor (app.js lines 25-32).  The `acceleration`/`velocity` fields of
the source object are written nowhere in the classifier and read nowhere at
all, so they carry no behaviour and are omitted. -/
@[ext]
structure DetectionState where
  lastPeakTime : ℝ
  stepCooldown : ℝ
  confidenceThreshold : ℝ
  stepSignatures : List StepSignature

/-- The constructor's `detectionState` initial value:
`lastPeakTime: 0, stepCooldown: 250, confidenceThreshold: 0.7,
stepSignatures: []` (app.js lines 25-32). -/
def initialDetectionState : DetectionState :=
  { lastPeakTime := 0
    stepCooldown := 250
    confidenceThreshold := 0.7
    stepSignatures := [] }

/-- `const movementThreshold = 9.8` (app.js line 87). -/
def movementThreshold : ℝ := 9.8

/-- The literal `6` of `verticalMovement > 6` (app.js line 96). -/
def verticalThreshold : ℝ := 6

/-- `Math.sqrt(x*x + y*y + z*z)` (app.js line 84). -/
def magnitudeOf (x y z : ℝ) : ℝ := Real.sqrt (x * x + y * y + z * z)

/-- `const timeSinceLastStep = currentTime - state.lastPeakTime`
(app.js line 88). -/
def timeSinceLastStep (st : DetectionState) (currentTime : ℝ) : ℝ :=
  currentTime - st.lastPeakTime

/-- `const isSignificantMovement = magnitude > movementThreshold`
(app.js line 91). -/
def isSignificantMovement (x y z : ℝ) : Prop :=
  magnitudeOf x y z > movementThreshold

/-- `const isValidStepInterval = timeSinceLastStep > state.stepCooldown`
(app.js line 92). -/
def isValidStepInterval (st : DetectionState) (currentTime : ℝ) : Prop :=
  timeSinceLastStep st currentTime > st.stepCooldown

/-- `const isVerticalStep = verticalMovement > 6` with
`verticalMovement = Math.abs(y)` (app.js lines 95-96). -/
def isVerticalStep (y : ℝ) : Prop := |y| > verticalThreshold

/-- The confidence accumulation (app.js lines 99-102):
`confidence = 0; += isSignificantMovement ? 0.4 : 0;
+= isValidStepInterval ? 0.3 : 0; += isVerticalStep ? 0.3 : 0`. -/
def confidenceOf (st : DetectionState) (x y z currentTime : ℝ) : ℝ :=
  (if isSignificantMovement x y z then 0.4 else 0)
    + (if isValidStepInterval st currentTime then 0.3 else 0)
    + (if isVerticalStep y then 0.3 else 0)

/-- The signature computed and pushed by `detectStep` for one sample
(app.js lines 105-110). -/
def signatureAt (st : DetectionState) (x y z currentTime : ℝ) : StepSignature :=
  { magnitude := magnitudeOf x y z
    verticalMovement := |y|
    confidence := confidenceOf st x y z currentTime
    timestamp := currentTime }

/-- The history update of `detectStep` (app.js lines 105-115): push the new
signature, then `if (state.stepSignatures.length > 10) shift()` — `shift`
removes the oldest (front) entry. -/
def pushSignature (st : DetectionState) (x y z currentTime : ℝ) : DetectionState :=
  let sigs := st.stepSignatures ++ [signatureAt st x y z currentTime]
  { st with stepSignatures := if sigs.length > 10 then sigs.tail else sigs }

/-- The decision returned by `detectStep` (app.js line 118):
`confidence > state.confidenceThreshold && isValidStepInterval`. -/
def stepDetected (st : DetectionState) (x y z currentTime : ℝ) : Prop :=
  confidenceOf st x y z currentTime > st.confidenceThreshold
    ∧ isValidStepInterval st currentTime

/-- The spec's output value `StepEvent {timestamp, confidence, accepted}`;
in the source an accepted sample makes `processMotionData` call
`recordStep`, which is the emission of the event. -/
structure StepEvent where
  timestamp : ℝ
  confidence : ℝ
  accepted : Bool

/-- One `processMotionData` round for one sample (app.js lines 64-78,
121-133): run `detectStep` (which always updates the signature history) and,
exactly when it returns true, run `recordStep`, which sets
`state.lastPeakTime` to the sample's time.  The emitted event carries the
sample's timestamp and the computed confidence. -/
def process (st : DetectionState) (x y z currentTime : ℝ) :
    Option StepEvent × DetectionState :=
  let st' := pushSignature st x y z currentTime
  if stepDetected st x y z currentTime then
    (some { timestamp := currentTime
            confidence := confidenceOf st x y z currentTime
            accepted := true },
     { st' with lastPeakTime := currentTime })
  else
    (none, st')

/-- A raw sensor sample, used to talk about runs of the classifier. -/
structure Sample where
  x : ℝ
  y : ℝ
  z : ℝ
  timestamp : ℝ

/-- Final state after processing a list of samples in order. -/
def processAll (st : DetectionState) : List Sample → DetectionState
  | [] => st
  | s :: rest => processAll (process st s.x s.y s.z s.timestamp).2 rest

/-- The per-sample decisions along a run, in order. -/
def processTrace (st : DetectionState) : List Sample → List (Option StepEvent)
  | [] => []
  | s :: rest =>
      (process st s.x s.y s.z s.timestamp).1
        :: processTrace (process st s.x s.y s.z s.timestamp).2 rest

/-- The signature generated by each call along a run, in order. -/
def traceSignatures (st : DetectionState) : List Sample → List StepSignature
  | [] => []
  | s :: rest =>
      signatureAt st s.x s.y s.z s.timestamp
        :: traceSignatures (process st s.x s.y s.z s.timestamp).2 rest

/-! ### Basic lemmas about the embedding -/

theorem magnitudeOf_gt_iff {c : ℝ} (hc : 0 ≤ c) (x y z : ℝ) :
    c < magnitudeOf x y z ↔ c ^ 2 < x * x + y * y + z * z := by
  unfold magnitudeOf
  exact Real.lt_sqrt hc

theorem pushSignature_lastPeakTime (st : DetectionState) (x y z t : ℝ) :
    (pushSignature st x y z t).lastPeakTime = st.lastPeakTime := rfl

theorem pushSignature_stepCooldown (st : DetectionState) (x y z t : ℝ) :
    (pushSignature st x y z t).stepCooldown = st.stepCooldown := rfl

theorem pushSignature_confidenceThreshold (st : DetectionState) (x y z t : ℝ) :
    (pushSignature st x y z t).confidenceThreshold = st.confidenceThreshold := rfl

theorem process_fst_eq_none_iff (st : DetectionState) (x y z t : ℝ) :
    (process st x y z t).1 = none ↔ ¬ stepDetected st x y z t := by
  unfold process
  by_cases h : stepDetected st x y z t <;> simp [h]

theorem process_snd_of_detected (st : DetectionState) (x y z t : ℝ)
    (h : stepDetected st x y z t) :
    (process st x y z t).2
      = { pushSignature st x y z t with lastPeakTime := t } := by
  unfold process
  simp [h]

theorem process_snd_of_not_detected (st : DetectionState) (x y z t : ℝ)
    (h : ¬ stepDetected st x y z t) :
    (process st x y z t).2 = pushSignature st x y z t := by
  unfold process
  simp [h]

theorem process_stepCooldown (st : DetectionState) (x y z t : ℝ) :
    (process st x y z t).2.stepCooldown = st.stepCooldown := by
  unfold process
  by_cases h : stepDetected st x y z t <;> simp [h, pushSignature_stepCooldown]

theorem process_confidenceThreshold (st : DetectionState) (x y z t : ℝ) :
    (process st x y z t).2.confidenceThreshold = st.confidenceThreshold := by
  unfold process
  by_cases h : stepDetected st x y z t <;>
    simp [h, pushSignature_confidenceThreshold]

theorem isSignificantMovement_iff (x y z : ℝ) :
    isSignificantMovement x y z ↔ (9.8 : ℝ) ^ 2 < x * x + y * y + z * z := by
  unfold isSignificantMovement movementThreshold
  exact magnitudeOf_gt_iff (by norm_num) x y z

theorem process_fst_of_detected (st : DetectionState) (x y z t : ℝ)
    (h : stepDetected st x y z t) :
    (process st x y z t).1
      = some { timestamp := t, confidence := confidenceOf st x y z t,
               accepted := true } := by
  unfold process
  simp [h]

theorem process_fst_none_of_interval_le (st : DetectionState) (x y z t : ℝ)
    (h : t - st.lastPeakTime ≤ st.stepCooldown) :
    (process st x y z t).1 = none := by
  rw [process_fst_eq_none_iff]
  rintro ⟨-, hi⟩
  unfold isValidStepInterval timeSinceLastStep at hi
  linarith

theorem process_lastPeakTime_lower (st : DetectionState) (x y z t : ℝ)
    (hc : 0 ≤ st.stepCooldown) {T : ℝ} (hT : T ≤ st.lastPeakTime) :
    T ≤ (process st x y z t).2.lastPeakTime := by
  by_cases hd : stepDetected st x y z t
  · rw [process_snd_of_detected st x y z t hd]
    have h2 := hd.2
    unfold isValidStepInterval timeSinceLastStep at h2
    show T ≤ t
    linarith
  · rw [process_snd_of_not_detected st x y z t hd, pushSignature_lastPeakTime]
    exact hT

theorem processTrace_none_of_le (c T : ℝ) (hc : 0 ≤ c)
    (samples : List Sample) :
    ∀ (st : DetectionState), st.stepCooldown = c → T ≤ st.lastPeakTime →
      ∀ (i : ℕ) (s : Sample), samples[i]? = some s → s.timestamp ≤ T + c →
        (processTrace st samples)[i]? = some none := by
  induction samples with
  | nil =>
      intro st _ _ i s hget _
      simp at hget
  | cons s0 rest ih =>
      intro st hcool hT i s hget hts
      cases i with
      | zero =>
          simp only [List.getElem?_cons_zero, Option.some.injEq] at hget
          subst hget
          unfold processTrace
          simp only [List.getElem?_cons_zero, Option.some.injEq]
          apply process_fst_none_of_interval_le
          rw [hcool]
          linarith
      | succ n =>
          unfold processTrace
          simp only [List.getElem?_cons_succ] at hget ⊢
          exact ih (process st s0.x s0.y s0.z s0.timestamp).2
            (by rw [process_stepCooldown]; exact hcool)
            (process_lastPeakTime_lower st s0.x s0.y s0.z s0.timestamp
              (hcool ▸ hc) hT)
            n s hget hts

theorem process_stepSignatures (st : DetectionState) (x y z t : ℝ) :
    (process st x y z t).2.stepSignatures
      = (pushSignature st x y z t).stepSignatures := by
  unfold process
  by_cases h : stepDetected st x y z t <;> simp [h]

theorem pushSignature_sigs_eq (st : DetectionState) (x y z t : ℝ)
    (h : st.stepSignatures.length ≤ 10) :
    (pushSignature st x y z t).stepSignatures
      = (st.stepSignatures ++ [signatureAt st x y z t]).drop
          (st.stepSignatures.length + 1 - 10) := by
  show (if (st.stepSignatures ++ [signatureAt st x y z t]).length > 10
      then (st.stepSignatures ++ [signatureAt st x y z t]).tail
      else st.stepSignatures ++ [signatureAt st x y z t])
    = (st.stepSignatures ++ [signatureAt st x y z t]).drop
        (st.stepSignatures.length + 1 - 10)
  by_cases hlen : (st.stepSignatures ++ [signatureAt st x y z t]).length > 10
  · rw [if_pos hlen]
    rw [List.length_append, List.length_singleton] at hlen
    rw [show st.stepSignatures.length + 1 - 10 = 1 by omega, List.drop_one]
  · rw [if_neg hlen]
    rw [List.length_append, List.length_singleton] at hlen
    rw [show st.stepSignatures.length + 1 - 10 = 0 by omega, List.drop_zero]

theorem process_sigs_length_le (st : DetectionState) (x y z t : ℝ)
    (h : st.stepSignatures.length ≤ 10) :
    (process st x y z t).2.stepSignatures.length ≤ 10 := by
  rw [process_stepSignatures, pushSignature_sigs_eq st x y z t h,
    List.length_drop, List.length_append, List.length_singleton]
  omega

theorem traceSignatures_length (samples : List Sample) :
    ∀ st : DetectionState, (traceSignatures st samples).length = samples.length := by
  induction samples with
  | nil => intro st; rfl
  | cons s rest ih =>
      intro st
      unfold traceSignatures
      rw [List.length_cons, List.length_cons, ih]

theorem processAll_stepSignatures (samples : List Sample) :
    ∀ st : DetectionState, st.stepSignatures.length ≤ 10 →
      (processAll st samples).stepSignatures
        = (st.stepSignatures ++ traceSignatures st samples).drop
            (st.stepSignatures.length + samples.length - 10) := by
  induction samples with
  | nil =>
      intro st h
      unfold processAll traceSignatures
      rw [List.append_nil, List.length_nil,
        show st.stepSignatures.length + 0 - 10 = 0 by omega, List.drop_zero]
  | cons s rest ih =>
      intro st h
      have hst1 : (process st s.x s.y s.z s.timestamp).2.stepSignatures
          = (st.stepSignatures ++ [signatureAt st s.x s.y s.z s.timestamp]).drop
              (st.stepSignatures.length + 1 - 10) := by
        rw [process_stepSignatures, pushSignature_sigs_eq st _ _ _ _ h]
      have hlen1 := process_sigs_length_le st s.x s.y s.z s.timestamp h
      show (processAll (process st s.x s.y s.z s.timestamp).2 rest).stepSignatures = _
      rw [ih _ hlen1, hst1]
      rw [← List.drop_append_of_le_length
        (by rw [List.length_append, List.length_singleton]; omega)]
      rw [List.drop_drop, List.length_drop, List.length_append,
        List.length_singleton, List.append_assoc, List.singleton_append,
        List.length_cons]
      congr 1
      omega

theorem ite_weight_le (c : Prop) (w : ℝ) (hw : 0 ≤ w) :
    (if c then w else 0) ≤ w := by
  split_ifs
  · exact le_refl w
  · exact hw

theorem sig_ex2 : isSignificantMovement 0 10 9.9 := by
  rw [isSignificantMovement_iff]
  norm_num

theorem vert_ex2 : isVerticalStep 10 := by
  unfold isVerticalStep verticalThreshold
  rw [abs_of_nonneg (by norm_num : (0 : ℝ) ≤ 10)]
  norm_num

theorem interval_init_1000 : isValidStepInterval initialDetectionState 1000 := by
  unfold isValidStepInterval timeSinceLastStep initialDetectionState
  norm_num

theorem confidence_ex2 : confidenceOf initialDetectionState 0 10 9.9 1000 = 1 := by
  unfold confidenceOf
  rw [if_pos sig_ex2, if_pos interval_init_1000, if_pos vert_ex2]
  norm_num

theorem stepDetected_ex2 : stepDetected initialDetectionState 0 10 9.9 1000 := by
  refine ⟨?_, interval_init_1000⟩
  rw [confidence_ex2]
  show (1 : ℝ) > initialDetectionState.confidenceThreshold
  unfold initialDetectionState
  norm_num

/-! ### Claims -/

/-- Claim C1: in any state, `process` emits a step event for a sample iff
the computed confidence is strictly greater than the state's
`confidenceThreshold` and `isValidStepInterval` holds
(`timeSinceLastStep > stepCooldown`); when either conjunct fails, no event
is emitted.  This is app.js line 118 together with the acceptance branch of
`processMotionData`. -/
theorem accept_iff_confidence_and_interval (st : DetectionState) (x y z t : ℝ) :
    (process st x y z t).1 ≠ none ↔
      (confidenceOf st x y z t > st.confidenceThreshold
        ∧ isValidStepInterval st t) := by
  rw [Ne, process_fst_eq_none_iff, not_not]
  exact Iff.rfl

/-- Claim C2: for every sample and state with the default cooldown 250, the
confidence equals `0.4` if `√(x²+y²+z²) > 9.8` else `0`, plus `0.3` if
`t - lastPeakTime > 250` else `0`, plus `0.3` if `|y| > 6` else `0`, with no
clamping applied to the sum (app.js lines 84-102). -/
theorem confidence_formula (st : DetectionState) (h : st.stepCooldown = 250)
    (x y z t : ℝ) :
    confidenceOf st x y z t =
      (if Real.sqrt (x ^ 2 + y ^ 2 + z ^ 2) > 9.8 then (0.4 : ℝ) else 0)
        + (if t - st.lastPeakTime > 250 then (0.3 : ℝ) else 0)
        + (if |y| > 6 then (0.3 : ℝ) else 0) := by
  have hsq : x ^ 2 + y ^ 2 + z ^ 2 = x * x + y * y + z * z := by ring
  simp only [confidenceOf, isSignificantMovement, isValidStepInterval,
    timeSinceLastStep, magnitudeOf, movementThreshold, isVerticalStep,
    verticalThreshold]
  rw [hsq]
  simp only [h]

/-- Claim C2 witness: the formula evaluated at the initial state and the
all-zero sample. -/
theorem confidence_formula_witness :
    confidenceOf initialDetectionState 0 0 0 0 =
      (if Real.sqrt ((0 : ℝ) ^ 2 + 0 ^ 2 + 0 ^ 2) > 9.8 then (0.4 : ℝ) else 0)
        + (if (0 : ℝ) - initialDetectionState.lastPeakTime > 250
            then (0.3 : ℝ) else 0)
        + (if |(0 : ℝ)| > 6 then (0.3 : ℝ) else 0) :=
  confidence_formula initialDetectionState rfl 0 0 0 0

/-- Claim C3: cooldown enforcement.  If a step was accepted at timestamp `T`
(with a nonnegative cooldown, as in the default 250), then along any
subsequent run, every sample whose timestamp is at most `T + stepCooldown` —
which covers both the window `(T, T+stepCooldown]` and any timestamp
preceding `T`, whose negative interval never exceeds the positive cooldown —
is rejected, regardless of its magnitude and vertical values (app.js lines
88, 92, 118). -/
theorem cooldown_enforcement (st : DetectionState) (x0 y0 z0 T : ℝ)
    (hc : 0 ≤ st.stepCooldown)
    (hacc : (process st x0 y0 z0 T).1 ≠ none)
    (samples : List Sample) (i : ℕ) (s : Sample)
    (hget : samples[i]? = some s)
    (hts : s.timestamp ≤ T + st.stepCooldown) :
    (processTrace (process st x0 y0 z0 T).2 samples)[i]? = some none := by
  have hd : stepDetected st x0 y0 z0 T := by
    rwa [Ne, process_fst_eq_none_iff, not_not] at hacc
  have hlast : (process st x0 y0 z0 T).2.lastPeakTime = T := by
    rw [process_snd_of_detected st x0 y0 z0 T hd]
  exact processTrace_none_of_le st.stepCooldown T hc samples
    (process st x0 y0 z0 T).2 (process_stepCooldown st x0 y0 z0 T)
    (le_of_eq hlast.symm) i s hget hts

/-- Claim C3 witness: after the accepted step at `t = 1000`, the strong
sample at `t = 1100` (inside the 250 ms cooldown window) is rejected. -/
theorem cooldown_enforcement_witness :
    (processTrace (process initialDetectionState 0 10 9.9 1000).2
      [{ x := 0, y := 10, z := 9.9, timestamp := 1100 }])[0]? = some none :=
  cooldown_enforcement initialDetectionState 0 10 9.9 1000
    (by norm_num [initialDetectionState])
    (fun h => (process_fst_eq_none_iff initialDetectionState 0 10 9.9 1000).mp h
      stepDetected_ex2)
    [{ x := 0, y := 10, z := 9.9, timestamp := 1100 }] 0
    { x := 0, y := 10, z := 9.9, timestamp := 1100 }
    rfl
    (by norm_num [initialDetectionState])

/-- Claim C4 counterexample: the claim asserts that on the first-ever call,
at sample `(0, 0, 9.8, 0)` from the initial state, `validInterval` is true
(treating the interval as infinite) and the confidence is `0.3`.  In the
code `lastPeakTime` is initialized to `0` (app.js line 28), so the interval
is `0 - 0 = 0`, which is not `> 250`: `validInterval` is false and the
confidence is not `0.3`. -/
theorem first_call_interval_counterexample :
    ¬ isValidStepInterval initialDetectionState 0
      ∧ confidenceOf initialDetectionState 0 0 9.8 0 ≠ 0.3 := by
  have hni : ¬ isValidStepInterval initialDetectionState 0 := by
    unfold isValidStepInterval timeSinceLastStep initialDetectionState
    norm_num
  have hnm : ¬ isSignificantMovement 0 0 9.8 := by
    rw [isSignificantMovement_iff]
    norm_num
  have hnv : ¬ isVerticalStep 0 := by
    unfold isVerticalStep verticalThreshold
    norm_num
  refine ⟨hni, ?_⟩
  unfold confidenceOf
  rw [if_neg hnm, if_neg hni, if_neg hnv]
  norm_num

/-- Claim C4 (amended): with default configuration, the first-ever call to
`process` on sample `(x=0, y=0, z=9.8, t=0)` yields
`significantMovement = false` (magnitude 9.8 is not strictly greater than
9.8), `verticalStep = false`, and `validInterval = false` (the code
initializes `lastPeakTime` to 0, so the interval is 0, not treated as
infinite), hence confidence = 0, and the call returns no step event. -/
theorem first_call_gravity_sample :
    ¬ isSignificantMovement 0 0 9.8
      ∧ ¬ isVerticalStep 0
      ∧ ¬ isValidStepInterval initialDetectionState 0
      ∧ confidenceOf initialDetectionState 0 0 9.8 0 = 0
      ∧ (process initialDetectionState 0 0 9.8 0).1 = none := by
  have hni : ¬ isValidStepInterval initialDetectionState 0 := by
    unfold isValidStepInterval timeSinceLastStep initialDetectionState
    norm_num
  have hnm : ¬ isSignificantMovement 0 0 9.8 := by
    rw [isSignificantMovement_iff]
    norm_num
  have hnv : ¬ isVerticalStep 0 := by
    unfold isVerticalStep verticalThreshold
    norm_num
  have hconf : confidenceOf initialDetectionState 0 0 9.8 0 = 0 := by
    unfold confidenceOf
    rw [if_neg hnm, if_neg hni, if_neg hnv]
    norm_num
  refine ⟨hnm, hnv, hni, hconf, ?_⟩
  rw [process_fst_eq_none_iff]
  rintro ⟨-, hi⟩
  exact hni hi

/-- Claim C5: the worked sequence of the spec's Examples 2-4 with default
configuration: sample `(0, 10, 9.9, 1000)` from the initial state has
confidence 1 and is accepted, setting `lastPeakTime` to 1000; the same
sample at `t = 1100` falls inside the cooldown (interval 100 ≤ 250), has
confidence 0.7, which is not `> 0.7`, and is rejected; the same sample at
`t = 1300` (interval 300 > 250) has confidence 1 and is accepted. -/
theorem worked_sequence :
    (process initialDetectionState 0 10 9.9 1000).1
        = some { timestamp := 1000, confidence := 1, accepted := true }
      ∧ (process initialDetectionState 0 10 9.9 1000).2.lastPeakTime = 1000
      ∧ (process (process initialDetectionState 0 10 9.9 1000).2
          0 10 9.9 1100).1 = none
      ∧ confidenceOf (process initialDetectionState 0 10 9.9 1000).2
          0 10 9.9 1100 = 0.7
      ∧ (process (process (process initialDetectionState 0 10 9.9 1000).2
          0 10 9.9 1100).2 0 10 9.9 1300).1
        = some { timestamp := 1300, confidence := 1, accepted := true } := by
  have h1 : (process initialDetectionState 0 10 9.9 1000).1
      = some { timestamp := 1000, confidence := 1, accepted := true } := by
    rw [process_fst_of_detected _ _ _ _ _ stepDetected_ex2, confidence_ex2]
  have hpeak1 : (process initialDetectionState 0 10 9.9 1000).2.lastPeakTime
      = 1000 := by
    rw [process_snd_of_detected _ _ _ _ _ stepDetected_ex2]
  have hcool1 : (process initialDetectionState 0 10 9.9 1000).2.stepCooldown
      = 250 := by
    rw [process_stepCooldown]
    rfl
  have hthr1 :
      (process initialDetectionState 0 10 9.9 1000).2.confidenceThreshold
      = 0.7 := by
    rw [process_confidenceThreshold]
    rfl
  have hni2 : ¬ isValidStepInterval
      (process initialDetectionState 0 10 9.9 1000).2 1100 := by
    unfold isValidStepInterval timeSinceLastStep
    rw [hpeak1, hcool1]
    norm_num
  have hconf2 : confidenceOf (process initialDetectionState 0 10 9.9 1000).2
      0 10 9.9 1100 = 0.7 := by
    unfold confidenceOf
    rw [if_pos sig_ex2, if_neg hni2, if_pos vert_ex2]
    norm_num
  have hnd2 : ¬ stepDetected (process initialDetectionState 0 10 9.9 1000).2
      0 10 9.9 1100 := by
    rintro ⟨-, hi⟩
    exact hni2 hi
  have h2 : (process (process initialDetectionState 0 10 9.9 1000).2
      0 10 9.9 1100).1 = none := by
    rw [process_fst_eq_none_iff]
    exact hnd2
  have hst2 : (process (process initialDetectionState 0 10 9.9 1000).2
      0 10 9.9 1100).2
      = pushSignature (process initialDetectionState 0 10 9.9 1000).2
          0 10 9.9 1100 :=
    process_snd_of_not_detected _ _ _ _ _ hnd2
  have hpeak2 : (process (process initialDetectionState 0 10 9.9 1000).2
      0 10 9.9 1100).2.lastPeakTime = 1000 := by
    rw [hst2, pushSignature_lastPeakTime, hpeak1]
  have hcool2 : (process (process initialDetectionState 0 10 9.9 1000).2
      0 10 9.9 1100).2.stepCooldown = 250 := by
    rw [hst2, pushSignature_stepCooldown, hcool1]
  have hthr2 : (process (process initialDetectionState 0 10 9.9 1000).2
      0 10 9.9 1100).2.confidenceThreshold = 0.7 := by
    rw [hst2, pushSignature_confidenceThreshold, hthr1]
  have hi3 : isValidStepInterval
      (process (process initialDetectionState 0 10 9.9 1000).2
        0 10 9.9 1100).2 1300 := by
    unfold isValidStepInterval timeSinceLastStep
    rw [hpeak2, hcool2]
    norm_num
  have hconf3 : confidenceOf
      (process (process initialDetectionState 0 10 9.9 1000).2
        0 10 9.9 1100).2 0 10 9.9 1300 = 1 := by
    unfold confidenceOf
    rw [if_pos sig_ex2, if_pos hi3, if_pos vert_ex2]
    norm_num
  have hd3 : stepDetected
      (process (process initialDetectionState 0 10 9.9 1000).2
        0 10 9.9 1100).2 0 10 9.9 1300 := by
    refine ⟨?_, hi3⟩
    rw [hconf3, hthr2]
    norm_num
  have h3 : (process (process (process initialDetectionState 0 10 9.9 1000).2
      0 10 9.9 1100).2 0 10 9.9 1300).1
      = some { timestamp := 1300, confidence := 1, accepted := true } := by
    rw [process_fst_of_detected _ _ _ _ _ hd3, hconf3]
  exact ⟨h1, hpeak1, h2, hconf2, h3⟩

/-- Claim C6: signature-history invariant (app.js lines 104-115).  From any
state whose history holds at most 10 entries (every reachable state), a call
to `process` appends exactly one signature regardless of acceptance,
evicting the oldest entry exactly when the history was full — expressed as
`new = (old ++ [signatureAt ...]).drop (old.length + 1 - 10)`; the history
length never exceeds 10 after the call; and after `N ≥ 10` calls from the
initial state the history has length exactly 10 and contains precisely the
10 most recent signatures in arrival order. -/
theorem signature_history_invariant :
    (∀ (st : DetectionState) (x y z t : ℝ), st.stepSignatures.length ≤ 10 →
        (process st x y z t).2.stepSignatures
          = (st.stepSignatures ++ [signatureAt st x y z t]).drop
              (st.stepSignatures.length + 1 - 10))
      ∧ (∀ (st : DetectionState) (x y z t : ℝ),
          st.stepSignatures.length ≤ 10 →
            (process st x y z t).2.stepSignatures.length ≤ 10)
      ∧ (∀ samples : List Sample, 10 ≤ samples.length →
          (processAll initialDetectionState samples).stepSignatures
              = (traceSignatures initialDetectionState samples).drop
                  (samples.length - 10)
            ∧ (processAll initialDetectionState samples).stepSignatures.length
                = 10) := by
  refine ⟨?_, process_sigs_length_le, ?_⟩
  · intro st x y z t h
    rw [process_stepSignatures, pushSignature_sigs_eq st x y z t h]
  · intro samples hN
    have hinit : initialDetectionState.stepSignatures.length ≤ 10 := by
      show ([] : List StepSignature).length ≤ 10
      simp
    have hmain := processAll_stepSignatures samples initialDetectionState hinit
    have hempty : initialDetectionState.stepSignatures
        = ([] : List StepSignature) := rfl
    rw [hempty, List.nil_append, List.length_nil] at hmain
    rw [show 0 + samples.length - 10 = samples.length - 10 by omega] at hmain
    refine ⟨hmain, ?_⟩
    rw [hmain, List.length_drop, traceSignatures_length]
    omega

/-- Claim C6 witness: the per-call append at the initial state, and the
length-10 history after ten calls on the all-zero sample. -/
theorem signature_history_invariant_witness :
    (process initialDetectionState 0 0 0 0).2.stepSignatures
        = (initialDetectionState.stepSignatures
            ++ [signatureAt initialDetectionState 0 0 0 0]).drop
            (initialDetectionState.stepSignatures.length + 1 - 10)
      ∧ (processAll initialDetectionState
          (List.replicate 10
            { x := 0, y := 0, z := 0, timestamp := 0 })).stepSignatures.length
        = 10 :=
  ⟨signature_history_invariant.1 initialDetectionState 0 0 0 0
      (by norm_num [initialDetectionState]),
   (signature_history_invariant.2.2
      (List.replicate 10 { x := 0, y := 0, z := 0, timestamp := 0 })
      (by simp)).2⟩

/-- Claim C7: frame condition on `lastPeakTime` (app.js lines 73-77,
121-133).  With a nonnegative cooldown: on a rejected sample the new state
agrees with the old one except possibly in the signature history (in
particular `lastPeakTime` is unchanged); on an accepted sample
`lastPeakTime` becomes the sample's timestamp, which genuinely differs from
its previous value, and everything except `lastPeakTime` and the history is
unchanged. -/
theorem lastPeak_frame_condition (st : DetectionState) (x y z t : ℝ)
    (hc : 0 ≤ st.stepCooldown) :
    ((process st x y z t).1 = none →
        (process st x y z t).2.lastPeakTime = st.lastPeakTime
          ∧ (process st x y z t).2
              = { st with
                  stepSignatures := (process st x y z t).2.stepSignatures })
      ∧ ((process st x y z t).1 ≠ none →
          (process st x y z t).2.lastPeakTime = t
            ∧ (process st x y z t).2.lastPeakTime ≠ st.lastPeakTime
            ∧ (process st x y z t).2
                = { st with
                    lastPeakTime := t,
                    stepSignatures := (process st x y z t).2.stepSignatures }) := by
  constructor
  · intro h
    rw [process_fst_eq_none_iff] at h
    rw [process_snd_of_not_detected st x y z t h]
    exact ⟨pushSignature_lastPeakTime st x y z t, DetectionState.ext rfl rfl rfl rfl⟩
  · intro h
    have hd : stepDetected st x y z t := by
      rwa [Ne, process_fst_eq_none_iff, not_not] at h
    have h2 := hd.2
    unfold isValidStepInterval timeSinceLastStep at h2
    rw [process_snd_of_detected st x y z t hd]
    refine ⟨rfl, ?_, DetectionState.ext rfl rfl rfl rfl⟩
    show t ≠ st.lastPeakTime
    intro heq
    rw [heq] at h2
    linarith

/-- Claim C7 witness: the rejected all-zero sample at the initial state
leaves `lastPeakTime` alone and mutates only the history. -/
theorem lastPeak_frame_condition_witness :
    (process initialDetectionState 0 0 0 0).2.lastPeakTime
        = initialDetectionState.lastPeakTime
      ∧ (process initialDetectionState 0 0 0 0).2
          = { initialDetectionState with
              stepSignatures :=
                (process initialDetectionState 0 0 0 0).2.stepSignatures } :=
  (lastPeak_frame_condition initialDetectionState 0 0 0 0
      (by norm_num [initialDetectionState])).1
    (process_fst_none_of_interval_le initialDetectionState 0 0 0 0
      (by norm_num [initialDetectionState]))

/-- Claim C8: history-independence of the decision (app.js lines 80-119).
Two states agreeing on `lastPeakTime`, `stepCooldown` and
`confidenceThreshold` but with arbitrary (possibly different) signature
histories give the same confidence and the same emitted decision on any
sample. -/
theorem history_independence (st1 st2 : DetectionState)
    (hp : st1.lastPeakTime = st2.lastPeakTime)
    (hcool : st1.stepCooldown = st2.stepCooldown)
    (hthr : st1.confidenceThreshold = st2.confidenceThreshold)
    (x y z t : ℝ) :
    confidenceOf st1 x y z t = confidenceOf st2 x y z t
      ∧ (process st1 x y z t).1 = (process st2 x y z t).1 := by
  have hi : isValidStepInterval st1 t ↔ isValidStepInterval st2 t := by
    unfold isValidStepInterval timeSinceLastStep
    rw [hp, hcool]
  have hconf : confidenceOf st1 x y z t = confidenceOf st2 x y z t := by
    unfold confidenceOf
    simp only [hi]
  refine ⟨hconf, ?_⟩
  have hd : stepDetected st1 x y z t ↔ stepDetected st2 x y z t := by
    unfold stepDetected
    rw [hconf, hthr, hi]
  by_cases h : stepDetected st2 x y z t
  · rw [process_fst_of_detected st1 x y z t (hd.mpr h),
      process_fst_of_detected st2 x y z t h, hconf]
  · rw [(process_fst_eq_none_iff st1 x y z t).mpr (fun hh => h (hd.mp hh)),
      (process_fst_eq_none_iff st2 x y z t).mpr h]

/-- Claim C8 witness: the initial state versus the same state with a junk
signature in its history agree on the confidence and the decision for the
accepted Example-2 sample. -/
theorem history_independence_witness :
    confidenceOf initialDetectionState 0 10 9.9 1000
        = confidenceOf
            { initialDetectionState with
              stepSignatures :=
                [{ magnitude := 1, verticalMovement := 2, confidence := 3,
                   timestamp := 4 }] } 0 10 9.9 1000
      ∧ (process initialDetectionState 0 10 9.9 1000).1
          = (process
              { initialDetectionState with
                stepSignatures :=
                  [{ magnitude := 1, verticalMovement := 2, confidence := 3,
                     timestamp := 4 }] } 0 10 9.9 1000).1 :=
  history_independence initialDetectionState
    { initialDetectionState with
      stepSignatures :=
        [{ magnitude := 1, verticalMovement := 2, confidence := 3,
           timestamp := 4 }] }
    rfl rfl rfl 0 10 9.9 1000

/-- Claim C10: with the hardcoded weights 0.4/0.3/0.3 and the default
threshold 0.7, a sample is accepted iff all three predicates hold at once,
and every accepted step has confidence exactly 1 (app.js lines 91-118):
no proper subset of the predicates reaches a confidence above 0.7. -/
theorem accept_iff_all_three (st : DetectionState)
    (h : st.confidenceThreshold = 0.7) (x y z t : ℝ) :
    ((process st x y z t).1 ≠ none ↔
        (isSignificantMovement x y z ∧ isValidStepInterval st t
          ∧ isVerticalStep y))
      ∧ ((process st x y z t).1 ≠ none → confidenceOf st x y z t = 1) := by
  have key : (process st x y z t).1 ≠ none ↔ stepDetected st x y z t := by
    rw [Ne, process_fst_eq_none_iff, not_not]
  have conf_all : ∀ hm : isSignificantMovement x y z,
      ∀ hi : isValidStepInterval st t, ∀ hv : isVerticalStep y,
        confidenceOf st x y z t = 1 := by
    intro hm hi hv
    unfold confidenceOf
    rw [if_pos hm, if_pos hi, if_pos hv]
    norm_num
  have part1 : (process st x y z t).1 ≠ none ↔
      (isSignificantMovement x y z ∧ isValidStepInterval st t
        ∧ isVerticalStep y) := by
    rw [key]
    unfold stepDetected
    rw [h]
    constructor
    · rintro ⟨hgt, hi⟩
      refine ⟨?_, hi, ?_⟩
      · by_contra hm
        have hb : confidenceOf st x y z t ≤ 0.6 := by
          unfold confidenceOf
          rw [if_neg hm]
          have h2 := ite_weight_le (isValidStepInterval st t) 0.3 (by norm_num)
          have h3 := ite_weight_le (isVerticalStep y) 0.3 (by norm_num)
          linarith
        linarith
      · by_contra hv
        have hb : confidenceOf st x y z t ≤ 0.7 := by
          unfold confidenceOf
          rw [if_neg hv]
          have h1 := ite_weight_le (isSignificantMovement x y z) 0.4 (by norm_num)
          have h2 := ite_weight_le (isValidStepInterval st t) 0.3 (by norm_num)
          linarith
        linarith
    · rintro ⟨hm, hi, hv⟩
      refine ⟨?_, hi⟩
      rw [conf_all hm hi hv]
      norm_num
  refine ⟨part1, ?_⟩
  intro hacc
  obtain ⟨hm, hi, hv⟩ := part1.mp hacc
  exact conf_all hm hi hv

/-- Claim C10 witness: the Example-2 sample satisfies all three predicates
and is accepted from the initial state. -/
theorem accept_iff_all_three_witness :
    (process initialDetectionState 0 10 9.9 1000).1 ≠ none :=
  (accept_iff_all_three initialDetectionState rfl 0 10 9.9 1000).1.mpr
    ⟨sig_ex2, interval_init_1000, vert_ex2⟩

/-! ### Extended-number model: NaN and Infinity propagation

JavaScript numbers are IEEE-754 doubles, so the acceleration components of
a malformed sample can be NaN or ±Infinity, and app.js has no finiteness
guard.  To settle claim C9 we re-embed `detectStep` over reals extended
with the three non-finite values, with the IEEE propagation rules for the
operations the source applies to `x`, `y`, `z`: multiplication, addition,
`Math.sqrt`, `Math.abs` and comparison with a finite literal (comparisons
involving NaN are false).  Timestamps, the configuration and the confidence
accumulator stay real: the weights are finite literals, so the confidence
is always finite. -/

/-- A JavaScript number: NaN, +Infinity, -Infinity, or a finite value. -/
inductive ENum where
  | nan : ENum
  | inf : ENum
  | ninf : ENum
  | num : ℝ → ENum

/-- IEEE multiplication on extended numbers (`x*x` in app.js line 84). -/
def ENum.mul : ENum → ENum → ENum
  | nan, _ => nan
  | _, nan => nan
  | inf, inf => inf
  | inf, ninf => ninf
  | ninf, inf => ninf
  | ninf, ninf => inf
  | inf, num r => if 0 < r then inf else if r < 0 then ninf else nan
  | num r, inf => if 0 < r then inf else if r < 0 then ninf else nan
  | ninf, num r => if 0 < r then ninf else if r < 0 then inf else nan
  | num r, ninf => if 0 < r then ninf else if r < 0 then inf else nan
  | num a, num b => num (a * b)

/-- IEEE addition on extended numbers (the sums in app.js line 84). -/
def ENum.add : ENum → ENum → ENum
  | nan, _ => nan
  | _, nan => nan
  | inf, ninf => nan
  | ninf, inf => nan
  | inf, _ => inf
  | _, inf => inf
  | ninf, _ => ninf
  | _, ninf => ninf
  | num a, num b => num (a + b)

/-- IEEE `Math.sqrt` on extended numbers: NaN for NaN and for negative
arguments (including -Infinity), +Infinity for +Infinity. -/
def ENum.sqrt : ENum → ENum
  | nan => nan
  | inf => inf
  | ninf => nan
  | num r => if r < 0 then nan else num (Real.sqrt r)

/-- IEEE `Math.abs` on extended numbers. -/
def ENum.abs : ENum → ENum
  | nan => nan
  | inf => inf
  | ninf => inf
  | num r => num |r|

/-- The comparison `a > c` of an extended number against a finite
threshold: false whenever `a` is NaN, true for +Infinity. -/
def ENum.gtReal : ENum → ℝ → Prop
  | nan, _ => False
  | inf, _ => True
  | ninf, _ => False
  | num r, c => c < r

/-- Signature entry in the extended model: magnitude and vertical movement
may be non-finite, confidence and timestamp stay finite. -/
structure StepSignatureE where
  magnitude : ENum
  verticalMovement : ENum
  confidence : ℝ
  timestamp : ℝ

/-- Classifier state in the extended model. -/
structure DetectionStateE where
  lastPeakTime : ℝ
  stepCooldown : ℝ
  confidenceThreshold : ℝ
  stepSignatures : List StepSignatureE

/-- The constructor's initial `detectionState` in the extended model. -/
def initialDetectionStateE : DetectionStateE :=
  { lastPeakTime := 0
    stepCooldown := 250
    confidenceThreshold := 0.7
    stepSignatures := [] }

/-- `Math.sqrt(x*x + y*y + z*z)` over extended numbers (left-associated
sums, as in the source). -/
def magnitudeOfE (x y z : ENum) : ENum :=
  ENum.sqrt (ENum.add (ENum.add (ENum.mul x x) (ENum.mul y y)) (ENum.mul z z))

/-- `magnitude > movementThreshold` over extended numbers. -/
def isSignificantMovementE (x y z : ENum) : Prop :=
  ENum.gtReal (magnitudeOfE x y z) movementThreshold

/-- `Math.abs(y) > 6` over extended numbers. -/
def isVerticalStepE (y : ENum) : Prop :=
  ENum.gtReal (ENum.abs y) verticalThreshold

/-- `timeSinceLastStep > state.stepCooldown`; timestamps are finite. -/
def isValidStepIntervalE (st : DetectionStateE) (currentTime : ℝ) : Prop :=
  currentTime - st.lastPeakTime > st.stepCooldown

/-- The confidence accumulation of app.js lines 99-102 in the extended
model; the accumulator itself is finite. -/
def confidenceOfE (st : DetectionStateE) (x y z : ENum) (currentTime : ℝ) : ℝ :=
  (if isSignificantMovementE x y z then 0.4 else 0)
    + (if isValidStepIntervalE st currentTime then 0.3 else 0)
    + (if isVerticalStepE y then 0.3 else 0)

/-- The decision of app.js line 118 in the extended model. -/
def stepDetectedE (st : DetectionStateE) (x y z : ENum) (currentTime : ℝ) :
    Prop :=
  confidenceOfE st x y z currentTime > st.confidenceThreshold
    ∧ isValidStepIntervalE st currentTime

/-- One `processMotionData` round in the extended model, mirroring
`process` above: push the signature, shift when over 10, emit the event and
record the peak exactly on acceptance. -/
def processE (st : DetectionStateE) (x y z : ENum) (currentTime : ℝ) :
    Option StepEvent × DetectionStateE :=
  let sigs := st.stepSignatures
    ++ [{ magnitude := magnitudeOfE x y z
          verticalMovement := ENum.abs y
          confidence := confidenceOfE st x y z currentTime
          timestamp := currentTime }]
  let st' := { st with
    stepSignatures := if sigs.length > 10 then sigs.tail else sigs }
  if stepDetectedE st x y z currentTime then
    (some { timestamp := currentTime
            confidence := confidenceOfE st x y z currentTime
            accepted := true },
     { st' with lastPeakTime := currentTime })
  else
    (none, st')

theorem ENum.nan_mul (a : ENum) : ENum.mul ENum.nan a = ENum.nan := by
  cases a <;> rfl

theorem ENum.mul_nan (a : ENum) : ENum.mul a ENum.nan = ENum.nan := by
  cases a <;> rfl

theorem ENum.nan_add (a : ENum) : ENum.add ENum.nan a = ENum.nan := by
  cases a <;> rfl

theorem ENum.add_nan (a : ENum) : ENum.add a ENum.nan = ENum.nan := by
  cases a <;> rfl

theorem magnitudeOfE_nan (x y z : ENum)
    (h : x = ENum.nan ∨ y = ENum.nan ∨ z = ENum.nan) :
    magnitudeOfE x y z = ENum.nan := by
  unfold magnitudeOfE
  rcases h with h | h | h
  · subst h
    rw [ENum.nan_mul, ENum.nan_add, ENum.nan_add]
    rfl
  · subst h
    rw [ENum.nan_mul, ENum.add_nan, ENum.nan_add]
    rfl
  · subst h
    rw [ENum.nan_mul, ENum.add_nan]
    rfl

theorem processE_fst_eq_none_iff (st : DetectionStateE) (x y z : ENum)
    (t : ℝ) :
    (processE st x y z t).1 = none ↔ ¬ stepDetectedE st x y z t := by
  unfold processE
  by_cases h : stepDetectedE st x y z t <;> simp [h]

/-- Claim C9 counterexample: the claim says every sample with a non-finite
(NaN or Infinity) component emits no event, but the sample
`(x = +Infinity, y = 10, z = 0)` at `t = 1000` from the initial state has
magnitude +Infinity, which compares greater than 9.8, so all three
indicators hold, the confidence is 1 and a step event IS emitted. -/
theorem infinite_sample_accepted :
    (processE initialDetectionStateE ENum.inf (ENum.num 10) (ENum.num 0)
      1000).1 ≠ none := by
  rw [Ne, processE_fst_eq_none_iff, not_not]
  have hm : isSignificantMovementE ENum.inf (ENum.num 10) (ENum.num 0) :=
    trivial
  have hi : isValidStepIntervalE initialDetectionStateE 1000 := by
    unfold isValidStepIntervalE initialDetectionStateE
    norm_num
  have hv : isVerticalStepE (ENum.num 10) := by
    show (6 : ℝ) < |(10 : ℝ)|
    rw [abs_of_nonneg (by norm_num : (0 : ℝ) ≤ 10)]
    norm_num
  refine ⟨?_, hi⟩
  unfold confidenceOfE
  rw [if_pos hm, if_pos hi, if_pos hv]
  show (0.4 : ℝ) + 0.3 + 0.3 > initialDetectionStateE.confidenceThreshold
  norm_num [initialDetectionStateE]

/-- Claim C9 (amended): a sample with a NaN component in `x`, `y` or `z`
always degrades to "no step detected" under the default confidence
threshold 0.7 — the NaN-tainted magnitude comparison is false, so the
confidence can reach at most 0.6 — and processing it is total, so the
stream is never aborted.  (Samples with ±Infinity components are likewise
processed without aborting, but can be accepted, as the counterexample
shows.) -/
theorem nan_sample_rejected (st : DetectionStateE)
    (h : st.confidenceThreshold = 0.7) (x y z : ENum) (t : ℝ)
    (hnan : x = ENum.nan ∨ y = ENum.nan ∨ z = ENum.nan) :
    (processE st x y z t).1 = none := by
  have hm : ¬ isSignificantMovementE x y z := by
    unfold isSignificantMovementE
    rw [magnitudeOfE_nan x y z hnan]
    exact fun hf => hf
  have hconf : confidenceOfE st x y z t ≤ 0.6 := by
    unfold confidenceOfE
    rw [if_neg hm]
    have h2 := ite_weight_le (isValidStepIntervalE st t) 0.3 (by norm_num)
    have h3 := ite_weight_le (isVerticalStepE y) 0.3 (by norm_num)
    linarith
  rw [processE_fst_eq_none_iff]
  rintro ⟨hgt, -⟩
  rw [h] at hgt
  linarith

/-- Claim C9 witness: the all-NaN-x sample at the initial state is
rejected. -/
theorem nan_sample_rejected_witness :
    (processE initialDetectionStateE ENum.nan (ENum.num 0) (ENum.num 0)
      0).1 = none :=
  nan_sample_rejected initialDetectionStateE rfl ENum.nan (ENum.num 0)
    (ENum.num 0) 0 (Or.inl rfl)

end

end StepSync
